import Mathlib

/-!
Shallow embedding of `dev/env.go` (package `dev` of the devkube repository):
the `Environment` lifecycle around the external `kind` binary.

External effects (filesystem probes, process execution, executable lookup)
are supplied by a `World` oracle; every operation returns, next to its
result, the list of observable `Event`s it performed, in order.
-/

namespace Devkube

/-- Result of Go's `exec.LookPath`: found at a path, `exec.ErrNotFound`,
or some other error (e.g. permission denied). -/
inductive LookupResult where
  | found (path : String)
  | notFound
  | otherError (msg : String)
deriving DecidableEq, Repr

/-- Go type `ContainerRuntime` is a string type (declared outside
`dev/env.go`). -/
abbrev ContainerRuntime := String

/-- Modelled from the spec: the constant `ContainerRuntimeAuto` is declared
outside `src/`; the spec lists the enumerated values as auto, docker, podman. -/
def ContainerRuntimeAuto : ContainerRuntime := "auto"

/-- Modelled from the spec: the constant `ContainerRuntimePodman` declared
outside `src/`. -/
def ContainerRuntimePodman : ContainerRuntime := "podman"

/-- Modelled from the spec: the constant `ContainerRuntimeDocker` declared
outside `src/`. -/
def ContainerRuntimeDocker : ContainerRuntime := "docker"

/-- Opaque cluster handle (`*Cluster` produced by the external factory). -/
structure Cluster where
  id : Nat
deriving DecidableEq, Repr

/-- Options forwarded to the cluster factory. `WithKubeconfigPath` is the
one option `Init` itself injects; all other configured options are opaque. -/
inductive ClusterOption where
  | withKubeconfigPath (path : String)
  | other (tag : Nat)
deriving DecidableEq, Repr

/-- Modelled from the spec: `WithKubeconfigPath` is declared outside `src/`;
the spec calls it "an injected kubeconfig-path option". -/
def WithKubeconfigPath (p : String) : ClusterOption :=
  ClusterOption.withKubeconfigPath p

/-- `NewClusterFunc`: factory from a work directory and options to a cluster
handle or an error. -/
abbrev NewClusterFunc := String → List ClusterOption → Except String Cluster

/-- Modelled from the spec: the package-level default factory `NewCluster` is
declared outside `src/`; the spec treats it as an opaque external collaborator
whose only contract is `(workDir, options...) -> (ClusterHandle, Error)`. -/
def NewCluster : NewClusterFunc := fun _ _ => Except.ok ⟨0⟩

/-- `ClusterInitializer`: anything exposing `Init(ctx, cluster) error`.
The Go context carries no data the core inspects, so it is dropped. -/
structure ClusterInitializer where
  init : Cluster → Except String Unit

/-- Go struct `EnvironmentConfig`. In Go the `NewCluster` field may be nil
and is then defaulted; Lean functions are total, so the field is kept total
and the nil-defaulting branch of `Default` has no separate counterpart. -/
structure EnvironmentConfig where
  ClusterInitializers : List ClusterInitializer
  ContainerRuntime : ContainerRuntime
  NewCluster : NewClusterFunc
  ClusterOptions : List ClusterOption

/-- `EnvironmentConfig.Default`: if the runtime string is empty, set it to
`ContainerRuntimeAuto` (the `NewCluster == nil` branch is vacuous here). -/
def EnvironmentConfig.Default (c : EnvironmentConfig) : EnvironmentConfig :=
  { c with
    ContainerRuntime :=
      if c.ContainerRuntime.length = 0 then ContainerRuntimeAuto
      else c.ContainerRuntime }

/-- `EnvironmentOption.ApplyToEnvironmentConfig`, as a config transformer. -/
abbrev EnvironmentOption := EnvironmentConfig → EnvironmentConfig

/-- Go struct `Environment`; `Cluster *Cluster` starts nil (`none`). -/
structure Environment where
  Name : String
  WorkDir : String
  Cluster : Option Cluster
  config : EnvironmentConfig

/-- The zero value of `EnvironmentConfig` before options are applied
(`NewCluster` starts at the default since nil is not representable). -/
def zeroConfig : EnvironmentConfig :=
  { ClusterInitializers := []
    ContainerRuntime := ""
    NewCluster := NewCluster
    ClusterOptions := [] }

/-- `NewEnvironment`: applies each option to the config, then defaults. -/
def NewEnvironment (name workDir : String)
    (opts : List EnvironmentOption) : Environment :=
  { Name := name
    WorkDir := workDir
    Cluster := none
    config := (opts.foldl (fun c o => o c) zeroConfig).Default }

/-- Go's `path.Join` for the two call shapes `env.go` uses
(`Join(workDir, "kubeconfig.yaml")` and `Join(workDir, "/kind.yaml")`):
join with a slash, collapsing the duplicate separator that `path.Clean`
would remove. -/
def pathJoin (a b : String) : String :=
  match b.data with
  | '/' :: _ => a ++ b
  | _ => a ++ "/" ++ b

/-- Boolean prefix test on character lists (`strings.HasPrefix` shape). -/
def hasPrefixCh : List Char → List Char → Bool
  | [], _ => true
  | _ :: _, [] => false
  | p :: ps, c :: cs => p = c && hasPrefixCh ps cs

/-- Boolean substring test on character lists: does `pat` occur inside `s`? -/
def containsCh (s pat : List Char) : Bool :=
  if hasPrefixCh pat s then true
  else
    match s with
    | [] => false
    | _ :: rest => containsCh rest pat

/-- Go `strings.Contains(s, pat)`. -/
def strContains (s pat : String) : Bool :=
  containsCh s.data pat.data

/-- Splits a character list at newline characters; a trailing newline
yields a final empty line. Used only to state the spec's "exact line"
notion, not by the embedded code. -/
def splitLinesCh : List Char → List (List Char)
  | [] => [[]]
  | c :: cs =>
    if c = '\n' then [] :: splitLinesCh cs
    else
      match splitLinesCh cs with
      | [] => [[c]]
      | l :: ls => (c :: l) :: ls

/-- Spec-side definition, following the spec's words for the reuse test:
"the environment's name must appear as an exact line (not a substring of
another name) in the query output". -/
def nameIsExactLine (out name : String) : Bool :=
  (splitLinesCh out.data).contains name.data

/-- The create-vs-reuse decision of `Init`:
`createCluster := !strings.Contains(checkOutput.String(), env.Name+"\n")`. -/
def createClusterDecision (checkOutput name : String) : Bool :=
  !(strContains checkOutput (name ++ "\n"))

/-- The fixed two-line kind/apiVersion header written by `Init`. -/
def kindConfigHeader : String :=
  "kind: Cluster\napiVersion: kind.x-k8s.io/v1alpha4\n"

/-- The control-plane extraMounts stanza appended when `/dev/dm-0` exists. -/
def dm0Stanza : String :=
  "nodes:\n- role: control-plane\n  extraMounts:\n    - hostPath: /dev/dm-0\n      containerPath: /dev/dm-0\n      propagation: HostToContainer\n"

/-- The topology document `Init` builds, as a function of whether
`os.Lstat("/dev/dm-0")` succeeded. -/
def kindConfigFor (dm0Exists : Bool) : String :=
  if dm0Exists then kindConfigHeader ++ dm0Stanza else kindConfigHeader

/-- Observable events of the embedded operations, in execution order. -/
inductive Event where
  /-- `DetectContainerRuntime` was invoked. -/
  | detect
  /-- `os.MkdirAll(dir, ...)` was invoked. -/
  | mkdirAll (dir : String)
  /-- `ioutil.WriteFile(path, content, ...)` was invoked. -/
  | writeFile (path : String) (content : String)
  /-- The `kind` binary was executed: runtime configured at call time,
  full child-process environment, arguments, and whether stdout was
  captured into a buffer (`true`) or streamed to the real stdout (`false`). -/
  | execKind (rt : ContainerRuntime) (childEnv : List String)
      (args : List String) (captured : Bool)
  /-- The cluster factory `env.config.NewCluster` was invoked. -/
  | newCluster (workDir : String) (opts : List ClusterOption)
  /-- The initializer at position `idx` of the configured list was invoked. -/
  | initRun (idx : Nat)
deriving DecidableEq, Repr

/-- Oracle for the external world consulted by the embedded operations. -/
structure World where
  /-- `exec.LookPath` behaviour, for `DetectContainerRuntime`. -/
  lookPath : String → LookupResult
  /-- whether `os.Lstat("/dev/dm-0")` returns no error. -/
  dm0Exists : Bool
  /-- result of `os.MkdirAll(env.WorkDir, ...)`: `none` is success. -/
  mkdirAllErr : Option String
  /-- result of `ioutil.WriteFile` for the kind config: `none` is success. -/
  writeFileErr : Option String
  /-- behaviour of running the `kind` binary: for an argument list, an
  error or the text the child wrote to stdout. -/
  execKind : List String → Except String String
  /-- `os.Environ()`, the inherited process environment. -/
  osEnviron : List String

/-- `DetectContainerRuntime`: looks up `podman` first, then `docker`;
a lookup error other than not-found is fatal immediately. Also returns
the names looked up, in order. -/
def DetectContainerRuntime (lookPath : String → LookupResult) :
    Except String ContainerRuntime × List String :=
  match lookPath "podman" with
  | LookupResult.found _ => (Except.ok ContainerRuntimePodman, ["podman"])
  | LookupResult.otherError e =>
      (Except.error ("looking up podman executable: " ++ e), ["podman"])
  | LookupResult.notFound =>
    match lookPath "docker" with
    | LookupResult.found _ =>
        (Except.ok ContainerRuntimeDocker, ["podman", "docker"])
    | LookupResult.otherError e =>
        (Except.error ("looking up docker executable: " ++ e),
          ["podman", "docker"])
    | LookupResult.notFound =>
        (Except.error "could not detect container runtime",
          ["podman", "docker"])

/-- `Environment.setContainerRuntime`: if the configured runtime is the
`auto` sentinel, detect and cache, otherwise do nothing. The event list
records whether detection was invoked. -/
def Environment.setContainerRuntime (env : Environment) (w : World) :
    Except String Environment × List Event :=
  if env.config.ContainerRuntime = ContainerRuntimeAuto then
    match (DetectContainerRuntime w.lookPath).1 with
    | Except.error e => (Except.error e, [Event.detect])
    | Except.ok cr =>
        (Except.ok
          { env with config := { env.config with ContainerRuntime := cr } },
          [Event.detect])
  else (Except.ok env, [])

/-- The child-process environment `execKindCommand` builds: `os.Environ()`
plus `KIND_EXPERIMENTAL_PROVIDER=podman` exactly when the configured
runtime is `"podman"`. -/
def execKindChildEnv (rt : ContainerRuntime) (osEnviron : List String) :
    List String :=
  if rt = "podman" then osEnviron ++ ["KIND_EXPERIMENTAL_PROVIDER=podman"]
  else osEnviron

/-- `Environment.execKindCommand`: runs the `kind` binary with the given
arguments; returns the result and the single execution event. `captured`
records whether the caller captured stdout into a buffer. -/
def Environment.execKindCommand (env : Environment) (w : World)
    (captured : Bool) (args : List String) :
    Except String String × Event :=
  (w.execKind args,
    Event.execKind env.config.ContainerRuntime
      (execKindChildEnv env.config.ContainerRuntime w.osEnviron)
      args captured)

/-- Runs the configured initializer list in order against the cluster,
stopping at the first error; returns the indices invoked (in order) and
the first raw error, if any. Mirrors the `for` loop of `Init`. -/
def runInitializers (inits : List ClusterInitializer) (c : Cluster)
    (idx : Nat) : List Nat × Option String :=
  match inits with
  | [] => ([], none)
  | i :: rest =>
    match i.init c with
    | Except.error e => ([idx], some e)
    | Except.ok _ =>
        let r := runInitializers rest c (idx + 1)
        (idx :: r.1, r.2)

/-- Result of `Environment.Init`: the returned error (if any), the
environment after the call (Go mutates the receiver), and the events. -/
structure InitResult where
  res : Except String Unit
  env : Environment
  trace : List Event

/-- The conditional create-cluster step of `Init`: when `createCluster`
holds, run `kind create cluster --kubeconfig=… --name=… --config=…`
streamed to the real stdout/stderr; otherwise do nothing. -/
def createStep (env : Environment) (w : World) (createCluster : Bool)
    (kubeconfigPath kindconfigPath : String) :
    Except String Unit × List Event :=
  if createCluster then
    match env.execKindCommand w false
        ["create", "cluster",
          "--kubeconfig=" ++ kubeconfigPath,
          "--name=" ++ env.Name,
          "--config=" ++ kindconfigPath] with
    | (Except.error e, ev2) =>
        (Except.error ("creating kind cluster: " ++ e), [ev2])
    | (Except.ok _, ev2) => (Except.ok (), [ev2])
  else (Except.ok (), [])

/-- `Environment.Init`, translated line by line from `env.go`. -/
def Environment.Init (env0 : Environment) (w : World) : InitResult :=
  match env0.setContainerRuntime w with
  | (Except.error e, tr0) => ⟨Except.error e, env0, tr0⟩
  | (Except.ok env, tr0) =>
    let kindConfig := kindConfigFor w.dm0Exists
    match w.mkdirAllErr with
    | some e =>
        ⟨Except.error ("creating workdir: " ++ e), env,
          tr0 ++ [Event.mkdirAll env.WorkDir]⟩
    | none =>
      let tr1 := tr0 ++ [Event.mkdirAll env.WorkDir]
      let kubeconfigPath := pathJoin env.WorkDir "kubeconfig.yaml"
      let kindconfigPath := pathJoin env.WorkDir "/kind.yaml"
      match w.writeFileErr with
      | some e =>
          ⟨Except.error ("creating kind cluster config: " ++ e), env,
            tr1 ++ [Event.writeFile kindconfigPath kindConfig]⟩
      | none =>
        let tr2 := tr1 ++ [Event.writeFile kindconfigPath kindConfig]
        match env.execKindCommand w true ["get", "clusters"] with
        | (Except.error e, ev) =>
            ⟨Except.error ("getting existing kind clusters: " ++ e), env,
              tr2 ++ [ev]⟩
        | (Except.ok checkOutput, ev) =>
          let tr3 := tr2 ++ [ev]
          let createCluster := createClusterDecision checkOutput env.Name
          match createStep env w createCluster kubeconfigPath kindconfigPath with
          | (Except.error e, trc) => ⟨Except.error e, env, tr3 ++ trc⟩
          | (Except.ok _, trc) =>
            let tr4 := tr3 ++ trc
            let opts :=
              env.config.ClusterOptions ++ [WithKubeconfigPath kubeconfigPath]
            match env.config.NewCluster env.WorkDir opts with
            | Except.error e =>
                ⟨Except.error ("creating k8s clients: " ++ e), env,
                  tr4 ++ [Event.newCluster env.WorkDir opts]⟩
            | Except.ok cluster =>
              let env2 := { env with Cluster := some cluster }
              let tr5 := tr4 ++ [Event.newCluster env.WorkDir opts]
              if createCluster then
                match runInitializers env.config.ClusterInitializers
                    cluster 0 with
                | (idxs, some e) =>
                    ⟨Except.error ("running cluster initializer: " ++ e),
                      env2, tr5 ++ idxs.map Event.initRun⟩
                | (idxs, none) =>
                    ⟨Except.ok (), env2, tr5 ++ idxs.map Event.initRun⟩
              else ⟨Except.ok (), env2, tr5⟩

/-- `Environment.Destroy`: `kind delete cluster`, streamed to real
stdout/stderr (not captured). -/
def Environment.Destroy (env : Environment) (w : World) :
    Except String Unit × List Event :=
  match env.execKindCommand w false
      ["delete", "cluster",
        "--kubeconfig=" ++ pathJoin env.WorkDir "kubeconfig.yaml",
        "--name=" ++ env.Name] with
  | (Except.error e, ev) =>
      (Except.error ("deleting kind cluster: " ++ e), [ev])
  | (Except.ok _, ev) => (Except.ok (), [ev])

/-- `Environment.LoadImageFromTar`: `kind load image-archive`. -/
def Environment.LoadImageFromTar (env : Environment) (w : World)
    (filePath : String) : Except String Unit × List Event :=
  match env.execKindCommand w false
      ["load", "image-archive", filePath, "--name=" ++ env.Name] with
  | (Except.error e, ev) =>
      (Except.error ("loading image archive: " ++ e), [ev])
  | (Except.ok _, ev) => (Except.ok (), [ev])

/-- `Environment.RunKindCommand`: pass-through to `execKindCommand`. -/
def Environment.RunKindCommand (env : Environment) (w : World)
    (args : List String) : Except String String × Event :=
  env.execKindCommand w false args

/-- Whether an event is an invocation of the cluster factory. -/
def Event.isNewCluster : Event → Bool
  | Event.newCluster _ _ => true
  | _ => false

/-- Whether an event is an invocation of a cluster initializer. -/
def Event.isInitRun : Event → Bool
  | Event.initRun _ => true
  | _ => false

/-- Whether an event is an execution of `kind create cluster …`. -/
def Event.isCreateCmd : Event → Bool
  | Event.execKind _ _ ("create" :: _) _ => true
  | _ => false

/-! Concrete fixtures used by witness and counterexample theorems. -/

/-- A world where every external step succeeds, the cluster query output
is empty, and both runtime lookups report not-found. -/
def w0 : World :=
  { lookPath := fun _ => LookupResult.notFound
    dm0Exists := false
    mkdirAllErr := none
    writeFileErr := none
    execKind := fun _ => Except.ok ""
    osEnviron := ["PATH=/bin"] }

/-- Like `w0`, but every `kind` execution fails. -/
def wQueryFail : World := { w0 with execKind := fun _ => Except.error "boom" }

/-- Like `w0`, but writing the kind config fails. -/
def wWriteFail : World := { w0 with writeFileErr := some "disk full" }

/-- Like `w0`, but the cluster query output already lists cluster `n`. -/
def wReuse : World := { w0 with execKind := fun _ => Except.ok "n\n" }

/-- A lookup table on which both container runtimes are present. -/
def lpBoth : String → LookupResult := fun s =>
  if s = "podman" then LookupResult.found "/usr/bin/podman"
  else if s = "docker" then LookupResult.found "/usr/bin/docker"
  else LookupResult.notFound

/-- An environment configured with the concrete docker runtime. -/
def envDocker : Environment :=
  { Name := "n", WorkDir := "wd", Cluster := none,
    config := { zeroConfig with ContainerRuntime := ContainerRuntimeDocker } }

/-- A freshly constructed environment with no options: its runtime
defaults to the `auto` sentinel. -/
def envAuto : Environment := NewEnvironment "n" "wd" []

/-- An initializer that always succeeds. -/
def initOk : ClusterInitializer := ⟨fun _ => Except.ok ()⟩

/-- An initializer that always fails. -/
def initFail : ClusterInitializer := ⟨fun _ => Except.error "B failed"⟩

/-- `envDocker` with initializer list [ok, failing, ok]. -/
def envABC : Environment :=
  { envDocker with
    config := { envDocker.config with
      ClusterInitializers := [initOk, initFail, initOk] } }

/-- `envDocker` with a cluster factory that always fails. -/
def envFacFail : Environment :=
  { envDocker with
    config := { envDocker.config with
      NewCluster := fun _ _ => Except.error "nope" } }

/-- An environment configured with the concrete podman runtime. -/
def envPodman : Environment :=
  { envDocker with
    config := { envDocker.config with
      ContainerRuntime := ContainerRuntimePodman } }

/-! ## Helper lemmas -/

theorem hasPrefixCh_iff : ∀ p s : List Char, hasPrefixCh p s = true ↔ p <+: s
  | [], s => by simp [hasPrefixCh]
  | p :: ps, [] => by simp [hasPrefixCh]
  | p :: ps, c :: cs => by
      simp [hasPrefixCh, List.cons_prefix_cons, hasPrefixCh_iff ps cs]

theorem containsCh_iff : ∀ s pat : List Char, containsCh s pat = true ↔ pat <:+: s := by
  intro s
  induction s with
  | nil =>
      intro pat
      cases pat with
      | nil => simp [containsCh, hasPrefixCh]
      | cons p ps => simp [containsCh, hasPrefixCh]
  | cons c cs ih =>
      intro pat
      rw [containsCh]
      by_cases h : hasPrefixCh pat (c :: cs) = true
      · simp only [h, if_true, true_iff]
        exact ((hasPrefixCh_iff pat (c :: cs)).mp h).isInfix
      · simp only [h, if_false, Bool.false_eq_true]
        rw [ih pat, List.infix_cons_iff]
        constructor
        · exact Or.inr
        · rintro (hp | hi)
          · exact absurd ((hasPrefixCh_iff pat (c :: cs)).mpr hp) h
          · exact hi

theorem detect_ok_ne_auto (lp : String → LookupResult) (cr : ContainerRuntime)
    (h : (DetectContainerRuntime lp).1 = Except.ok cr) :
    cr ≠ ContainerRuntimeAuto := by
  unfold DetectContainerRuntime at h
  rcases h1 : lp "podman" with p | _ | e <;> rw [h1] at h
  · simp at h; subst h; decide
  · rcases h2 : lp "docker" with p | _ | e <;> rw [h2] at h <;> simp at h
    subst h; decide
  · simp at h

theorem setCR_trace_cases (env : Environment) (w : World) :
    (env.setContainerRuntime w).2 = [] ∨
    (env.setContainerRuntime w).2 = [Event.detect] := by
  unfold Environment.setContainerRuntime
  by_cases h : env.config.ContainerRuntime = ContainerRuntimeAuto
  · rw [if_pos h]
    rcases hD : (DetectContainerRuntime w.lookPath).1 with e | cr <;> simp [hD]
  · rw [if_neg h]; simp

theorem setCR_ok_inv (env : Environment) (w : World) (env' : Environment)
    (tr : List Event) (h : env.setContainerRuntime w = (Except.ok env', tr)) :
    env'.Name = env.Name ∧ env'.WorkDir = env.WorkDir ∧
    env'.Cluster = env.Cluster ∧
    env'.config.ClusterInitializers = env.config.ClusterInitializers ∧
    env'.config.NewCluster = env.config.NewCluster ∧
    env'.config.ClusterOptions = env.config.ClusterOptions ∧
    env'.config.ContainerRuntime ≠ ContainerRuntimeAuto := by
  unfold Environment.setContainerRuntime at h
  by_cases ha : env.config.ContainerRuntime = ContainerRuntimeAuto
  · rw [if_pos ha] at h
    rcases hD : (DetectContainerRuntime w.lookPath).1 with e | cr <;> rw [hD] at h
    · simp at h
    · simp at h
      obtain ⟨h1, h2⟩ := h
      subst h1
      exact ⟨rfl, rfl, rfl, rfl, rfl, rfl, detect_ok_ne_auto w.lookPath cr hD⟩
  · rw [if_neg ha] at h
    simp at h
    obtain ⟨h1, h2⟩ := h
    subst h1
    exact ⟨rfl, rfl, rfl, rfl, rfl, rfl, ha⟩

theorem runInitializers_fail (c : Cluster) (e : String)
    (b : ClusterInitializer) (hb : b.init c = Except.error e) :
    ∀ (pre post : List ClusterInitializer) (idx : Nat),
      (∀ i ∈ pre, i.init c = Except.ok ()) →
      runInitializers (pre ++ b :: post) c idx =
        (List.range' idx (pre.length + 1), some e)
  | [], post, idx, _ => by
      simp [runInitializers, hb, List.range']
  | i :: pre, post, idx, hpre => by
      have hi : i.init c = Except.ok () := hpre i (by simp)
      have ih := runInitializers_fail c e b hb pre post (idx + 1)
        (fun j hj => hpre j (by simp [hj]))
      simp [runInitializers, hi, ih, List.range'_succ]

theorem createStep_events (env : Environment) (w : World) (cc : Bool)
    (kc kd : String) :
    (createStep env w cc kc kd).2 = [] ∨
    (createStep env w cc kc kd).2 =
      [Event.execKind env.config.ContainerRuntime
        (execKindChildEnv env.config.ContainerRuntime w.osEnviron)
        ["create", "cluster", "--kubeconfig=" ++ kc,
          "--name=" ++ env.Name, "--config=" ++ kd] false] := by
  cases cc
  · simp [createStep]
  · simp only [createStep, Environment.execKindCommand, if_true]
    rcases h : w.execKind
        ["create", "cluster", "--kubeconfig=" ++ kc,
          "--name=" ++ env.Name, "--config=" ++ kd] with e | s <;>
      simp [h]

theorem init_events_inv (env env' : Environment) (w : World)
    (tr0 : List Event)
    (hset : env.setContainerRuntime w = (Except.ok env', tr0)) :
    ∀ ev ∈ (env.Init w).trace,
      ev = Event.detect ∨
      ev = Event.mkdirAll env'.WorkDir ∨
      ev = Event.writeFile (pathJoin env'.WorkDir "/kind.yaml")
        (kindConfigFor w.dm0Exists) ∨
      (∃ a cap, ev = Event.execKind env'.config.ContainerRuntime
          (execKindChildEnv env'.config.ContainerRuntime w.osEnviron) a cap) ∨
      (∃ opts, ev = Event.newCluster env'.WorkDir opts) ∨
      (∃ idx, ev = Event.initRun idx) := by
  intro ev hmem
  have htr0 := setCR_trace_cases env w
  rw [hset] at htr0
  have htr0' : ∀ x ∈ tr0, x = Event.detect := by
    rcases htr0 with h | h <;> subst h <;> simp
  unfold Environment.Init at hmem
  rw [hset] at hmem
  rcases hmk : w.mkdirAllErr with _ | eM <;> rw [hmk] at hmem <;>
    simp only [] at hmem
  case some =>
    simp at hmem
    rcases hmem with h | h
    · exact Or.inl (htr0' ev h)
    · subst h; simp
  case none =>
    rcases hwr : w.writeFileErr with _ | eW <;> rw [hwr] at hmem <;>
      simp only [] at hmem
    case some =>
      simp at hmem
      rcases hmem with h | h | h
      · exact Or.inl (htr0' ev h)
      · subst h; simp
      · subst h; simp
    case none =>
      simp only [Environment.execKindCommand] at hmem
      rcases hq : w.execKind ["get", "clusters"] with eQ | out <;>
        rw [hq] at hmem <;> simp only [] at hmem
      case error =>
        simp at hmem
        rcases hmem with h | h | h | h
        · exact Or.inl (htr0' ev h)
        · subst h; simp
        · subst h; simp
        · subst h; simp
      case ok =>
        rcases hcs : createStep env' w
            (createClusterDecision out env'.Name)
            (pathJoin env'.WorkDir "kubeconfig.yaml")
            (pathJoin env'.WorkDir "/kind.yaml") with ⟨r, trc⟩
        have htrc : ∀ x ∈ trc,
            x = Event.execKind env'.config.ContainerRuntime
              (execKindChildEnv env'.config.ContainerRuntime w.osEnviron)
              ["create", "cluster",
                "--kubeconfig=" ++ pathJoin env'.WorkDir "kubeconfig.yaml",
                "--name=" ++ env'.Name,
                "--config=" ++ pathJoin env'.WorkDir "/kind.yaml"] false := by
          have := createStep_events env' w
            (createClusterDecision out env'.Name)
            (pathJoin env'.WorkDir "kubeconfig.yaml")
            (pathJoin env'.WorkDir "/kind.yaml")
          rw [hcs] at this
          rcases this with h | h <;> subst h <;> simp
        rw [hcs] at hmem
        rcases r with eC | u <;> simp only [] at hmem
        case error =>
          simp at hmem
          rcases hmem with h | h | h | h | h
          · exact Or.inl (htr0' ev h)
          · subst h; simp
          · subst h; simp
          · subst h; simp
          · have := htrc ev h
            subst this
            right; right; right; left
            exact ⟨_, _, rfl⟩
        case ok =>
          rcases hfac : env'.config.NewCluster env'.WorkDir
              (env'.config.ClusterOptions ++
                [WithKubeconfigPath
                  (pathJoin env'.WorkDir "kubeconfig.yaml")]) with eF | c <;>
            rw [hfac] at hmem <;> simp only [] at hmem
          case error =>
            simp at hmem
            rcases hmem with h | h | h | h | h | h
            · exact Or.inl (htr0' ev h)
            · subst h; simp
            · subst h; simp
            · subst h; simp
            · have := htrc ev h
              subst this
              right; right; right; left
              exact ⟨_, _, rfl⟩
            · subst h
              right; right; right; right; left
              exact ⟨_, rfl⟩
          case ok =>
            rcases hcc : createClusterDecision out env'.Name with _ | _ <;>
              rw [hcc] at hmem
            case false =>
              simp at hmem
              rcases hmem with h | h | h | h | h | h
              · exact Or.inl (htr0' ev h)
              · subst h; simp
              · subst h; simp
              · subst h; simp
              · have := htrc ev h
                subst this
                right; right; right; left
                exact ⟨_, _, rfl⟩
              · subst h
                right; right; right; right; left
                exact ⟨_, rfl⟩
            case true =>
              rcases hri : runInitializers env'.config.ClusterInitializers
                  c 0 with ⟨idxs, r2⟩
              rw [hri] at hmem
              rcases r2 with _ | eI <;> simp at hmem <;>
                rcases hmem with h | h | h | h | h | h | h
              · exact Or.inl (htr0' ev h)
              · subst h; simp
              · subst h; simp
              · subst h; simp
              · have := htrc ev h
                subst this
                right; right; right; left
                exact ⟨_, _, rfl⟩
              · subst h
                right; right; right; right; left
                exact ⟨_, rfl⟩
              · obtain ⟨idx, _, h2⟩ := h
                subst h2
                right; right; right; right; right
                exact ⟨_, rfl⟩
              · exact Or.inl (htr0' ev h)
              · subst h; simp
              · subst h; simp
              · subst h; simp
              · have := htrc ev h
                subst this
                right; right; right; left
                exact ⟨_, _, rfl⟩
              · subst h
                right; right; right; right; left
                exact ⟨_, rfl⟩
              · obtain ⟨idx, _, h2⟩ := h
                subst h2
                right; right; right; right; right
                exact ⟨_, rfl⟩

theorem init_writeFile_mem (env env' : Environment) (w : World)
    (tr0 : List Event)
    (hset : env.setContainerRuntime w = (Except.ok env', tr0))
    (hmk : w.mkdirAllErr = none) :
    Event.writeFile (pathJoin env'.WorkDir "/kind.yaml")
      (kindConfigFor w.dm0Exists) ∈ (env.Init w).trace := by
  unfold Environment.Init
  rw [hset]
  simp only [hmk, Environment.execKindCommand]
  rcases hwr : w.writeFileErr with _ | eW
  · rcases hq : w.execKind ["get", "clusters"] with eQ | out
    · simp
    · dsimp only
      rcases hcs : createStep env' w (createClusterDecision out env'.Name)
          (pathJoin env'.WorkDir "kubeconfig.yaml")
          (pathJoin env'.WorkDir "/kind.yaml") with ⟨r, trc⟩
      rcases r with eC | u
      · simp
      · rcases hfac : env'.config.NewCluster env'.WorkDir
            (env'.config.ClusterOptions ++
              [WithKubeconfigPath (pathJoin env'.WorkDir "kubeconfig.yaml")])
          with eF | c
        · simp
        · rcases hcc : createClusterDecision out env'.Name with _ | _
          · simp
          · dsimp only
            rcases hri : runInitializers env'.config.ClusterInitializers c 0
              with ⟨idxs, r2⟩
            rcases r2 with _ | eI <;> simp
  · simp

theorem destroy_events (env : Environment) (w : World) :
    (env.Destroy w).2 =
      [Event.execKind env.config.ContainerRuntime
        (execKindChildEnv env.config.ContainerRuntime w.osEnviron)
        ["delete", "cluster",
          "--kubeconfig=" ++ pathJoin env.WorkDir "kubeconfig.yaml",
          "--name=" ++ env.Name] false] := by
  unfold Environment.Destroy Environment.execKindCommand
  rcases h : w.execKind
      ["delete", "cluster",
        "--kubeconfig=" ++ pathJoin env.WorkDir "kubeconfig.yaml",
        "--name=" ++ env.Name] with e | s <;> simp [h]

theorem loadImage_events (env : Environment) (w : World) (filePath : String) :
    (env.LoadImageFromTar w filePath).2 =
      [Event.execKind env.config.ContainerRuntime
        (execKindChildEnv env.config.ContainerRuntime w.osEnviron)
        ["load", "image-archive", filePath, "--name=" ++ env.Name] false] := by
  unfold Environment.LoadImageFromTar Environment.execKindCommand
  rcases h : w.execKind
      ["load", "image-archive", filePath, "--name=" ++ env.Name]
    with e | s <;> simp [h]

theorem init_execKind_childEnv (env : Environment) (w : World)
    (rt : ContainerRuntime) (ce a : List String) (cap : Bool)
    (h : Event.execKind rt ce a cap ∈ (env.Init w).trace) :
    ce = execKindChildEnv rt w.osEnviron ∧ rt ≠ ContainerRuntimeAuto := by
  rcases hset : env.setContainerRuntime w with ⟨r, tr0⟩
  rcases r with e | env'
  · have htr0 := setCR_trace_cases env w
    rw [hset] at htr0
    unfold Environment.Init at h
    rw [hset] at h
    have h0 : tr0 = [] ∨ tr0 = [Event.detect] := by simpa using htr0
    rcases h0 with h0 | h0 <;> subst h0 <;> simp at h
  · have hinv := init_events_inv env env' w tr0 hset _ h
    obtain ⟨hN, hW, hC, hI, hF, hO, hA⟩ := setCR_ok_inv env w env' tr0 hset
    rcases hinv with h1 | h1 | h1 | h1 | h1 | h1
    · simp at h1
    · simp at h1
    · simp at h1
    · obtain ⟨a', cap', heq⟩ := h1
      rw [Event.execKind.injEq] at heq
      obtain ⟨hrt, hce, _, _⟩ := heq
      subst hrt
      exact ⟨hce, hA⟩
    · obtain ⟨opts, heq⟩ := h1
      simp at heq
    · obtain ⟨idx, heq⟩ := h1
      simp at heq

theorem init_env_inv (env env' : Environment) (w : World) (tr0 : List Event)
    (hset : env.setContainerRuntime w = (Except.ok env', tr0)) :
    (env.Init w).env.config = env'.config ∧
    (env.Init w).env.Name = env'.Name ∧
    (env.Init w).env.WorkDir = env'.WorkDir := by
  unfold Environment.Init
  rw [hset]
  simp only [Environment.execKindCommand]
  rcases hmk : w.mkdirAllErr with _ | eM
  case some => simp
  case none =>
  rcases hwr : w.writeFileErr with _ | eW
  case some => simp
  case none =>
  rcases hq : w.execKind ["get", "clusters"] with eQ | out
  case error => simp
  case ok =>
  dsimp only
  rcases hcs : createStep env' w (createClusterDecision out env'.Name)
      (pathJoin env'.WorkDir "kubeconfig.yaml")
      (pathJoin env'.WorkDir "/kind.yaml") with ⟨r, trc⟩
  rcases r with eC | u
  case error => simp
  case ok =>
  rcases hfac : env'.config.NewCluster env'.WorkDir
      (env'.config.ClusterOptions ++
        [WithKubeconfigPath (pathJoin env'.WorkDir "kubeconfig.yaml")])
    with eF | c
  case error => simp
  case ok =>
  rcases hcc : createClusterDecision out env'.Name with _ | _
  case false => simp
  case true =>
  dsimp only
  rcases hri : runInitializers env'.config.ClusterInitializers c 0
    with ⟨idxs, r2⟩
  rcases r2 with _ | eI <;> simp

theorem filter_isNewCluster_map_initRun (idxs : List Nat) :
    (idxs.map Event.initRun).filter Event.isNewCluster = [] := by
  induction idxs with
  | nil => rfl
  | cons i is ih => simp [Event.isNewCluster, ih]

theorem init_cluster_or_newCluster (env : Environment) (w : World) :
    (env.Init w).env.Cluster = env.Cluster ∨
    ∃ wd opts, Event.newCluster wd opts ∈ (env.Init w).trace := by
  rcases hset : env.setContainerRuntime w with ⟨r, tr0⟩
  rcases r with e | env'
  · left
    unfold Environment.Init
    rw [hset]
  · have hC := (setCR_ok_inv env w env' tr0 hset).2.2.1
    unfold Environment.Init
    rw [hset]
    dsimp only
    rcases hmk : w.mkdirAllErr with _ | eM
    case some => left; simp [hC]
    case none =>
    rcases hwr : w.writeFileErr with _ | eW
    case some => left; simp [hC]
    case none =>
    simp only [Environment.execKindCommand]
    rcases hq : w.execKind ["get", "clusters"] with eQ | out
    case error => left; simp [hC]
    case ok =>
    dsimp only
    rcases hcs : createStep env' w (createClusterDecision out env'.Name)
        (pathJoin env'.WorkDir "kubeconfig.yaml")
        (pathJoin env'.WorkDir "/kind.yaml") with ⟨r2, trc⟩
    rcases r2 with eC | u
    case error => left; simp [hC]
    case ok =>
    rcases hfac : env'.config.NewCluster env'.WorkDir
        (env'.config.ClusterOptions ++
          [WithKubeconfigPath (pathJoin env'.WorkDir "kubeconfig.yaml")])
      with eF | c
    case error =>
      right
      refine ⟨env'.WorkDir, env'.config.ClusterOptions ++
        [WithKubeconfigPath (pathJoin env'.WorkDir "kubeconfig.yaml")], ?_⟩
      simp
    case ok =>
    rcases hcc : createClusterDecision out env'.Name with _ | _
    case false =>
      right
      refine ⟨env'.WorkDir, env'.config.ClusterOptions ++
        [WithKubeconfigPath (pathJoin env'.WorkDir "kubeconfig.yaml")], ?_⟩
      simp
    case true =>
    rcases hri : runInitializers env'.config.ClusterInitializers c 0
      with ⟨idxs, r3⟩
    rcases r3 with _ | eI <;>
      (right
       refine ⟨env'.WorkDir, env'.config.ClusterOptions ++
         [WithKubeconfigPath (pathJoin env'.WorkDir "kubeconfig.yaml")], ?_⟩
       simp [hri])

/-! ## Claim theorems -/

/-- C1, counterexample: the claim says reuse happens iff the environment
name is a whole line of the query output; but for output `"bar-foo\n"`
and name `"foo"` the code decides reuse (no creation) although `"foo"`
is not a line of the output — the substring test also matches a name
that is a suffix of another cluster's name. -/
theorem c1_counterexample :
    ¬ ((createClusterDecision "bar-foo\n" "foo" = false) ↔
        nameIsExactLine "bar-foo\n" "foo" = true) := by decide

/-- C1 (amended): `Init` reuses the cluster iff the environment's name
followed by a newline occurs as a substring of the `get clusters` output.
This rules out prefix false positives — output `"foo-bar\n"` does not
trigger reuse for name `"foo"`, while an output line `"foo\n"` does — but
an output whose line merely ends in the name (`"bar-foo\n"`) is still
treated as reuse. -/
theorem c1_reuse_substring (out name : String) :
    (createClusterDecision out name = false ↔ (name ++ "\n").data <:+: out.data) ∧
    createClusterDecision "foo-bar\n" "foo" = true ∧
    createClusterDecision "foo\n" "foo" = false ∧
    createClusterDecision "bar-foo\n" "foo" = false := by
  refine ⟨?_, by decide, by decide, by decide⟩
  simp [createClusterDecision, strContains, containsCh_iff]

/-- C1 witness: the amended characterization evaluated at a concrete
output/name pair: an output line `"foo\n"` does trigger reuse. -/
theorem c1_witness : createClusterDecision "foo\n" "foo" = false :=
  (c1_reuse_substring "foo\n" "foo").2.2.1

/-- C4: runtime detection probes the preferred runtime (podman) first: if
its lookup succeeds detection returns podman and never probes docker; a
lookup failure other than not-found is returned immediately without
probing docker; if podman is not found, docker decides; if both lookups
report not-found, detection fails with the "no runtime detected" error. -/
theorem c4_detection_order (lp : String → LookupResult) :
    (∀ p, lp "podman" = LookupResult.found p →
        DetectContainerRuntime lp =
          (Except.ok ContainerRuntimePodman, ["podman"])) ∧
    (∀ e, lp "podman" = LookupResult.otherError e →
        DetectContainerRuntime lp =
          (Except.error ("looking up podman executable: " ++ e), ["podman"])) ∧
    (lp "podman" = LookupResult.notFound →
        (∀ p, lp "docker" = LookupResult.found p →
            DetectContainerRuntime lp =
              (Except.ok ContainerRuntimeDocker, ["podman", "docker"])) ∧
        (∀ e, lp "docker" = LookupResult.otherError e →
            DetectContainerRuntime lp =
              (Except.error ("looking up docker executable: " ++ e),
                ["podman", "docker"])) ∧
        (lp "docker" = LookupResult.notFound →
            DetectContainerRuntime lp =
              (Except.error "could not detect container runtime",
                ["podman", "docker"]))) := by
  refine ⟨?_, ?_, ?_⟩
  · intro p h; simp [DetectContainerRuntime, h]
  · intro e h; simp [DetectContainerRuntime, h]
  · intro h
    refine ⟨?_, ?_, ?_⟩
    · intro p h2; simp [DetectContainerRuntime, h, h2]
    · intro e h2; simp [DetectContainerRuntime, h, h2]
    · intro h2; simp [DetectContainerRuntime, h, h2]

/-- C4 witness: with both runtimes present on the path, detection returns
the preferred podman, probing only podman. -/
theorem c4_witness :
    DetectContainerRuntime lpBoth =
      (Except.ok ContainerRuntimePodman, ["podman"]) :=
  (c4_detection_order lpBoth).1 "/usr/bin/podman" (by decide)

/-- C6: the container runtime is resolved at most once and cached: a
configuration already holding a concrete (non-auto) runtime is returned
unchanged with no detection event; and after any successful
`setContainerRuntime`, the cached runtime is concrete (never the auto
sentinel), so a second call returns the same environment and performs no
detection. -/
theorem c6_runtime_cached (env : Environment) (w w' : World) :
    (env.config.ContainerRuntime ≠ ContainerRuntimeAuto →
        env.setContainerRuntime w = (Except.ok env, [])) ∧
    (∀ env' tr, env.setContainerRuntime w = (Except.ok env', tr) →
        env'.config.ContainerRuntime ≠ ContainerRuntimeAuto ∧
        env'.setContainerRuntime w' = (Except.ok env', [])) := by
  constructor
  · intro h
    simp [Environment.setContainerRuntime, h]
  · intro env' tr h
    by_cases ha : env.config.ContainerRuntime = ContainerRuntimeAuto
    · rw [Environment.setContainerRuntime, if_pos ha] at h
      rcases hD : (DetectContainerRuntime w.lookPath).1 with e | cr <;> rw [hD] at h
      · simp at h
      · simp at h
        obtain ⟨h1, h2⟩ := h
        subst h1
        have hne := detect_ok_ne_auto w.lookPath cr hD
        exact ⟨hne, by simp [Environment.setContainerRuntime, hne]⟩
    · rw [Environment.setContainerRuntime, if_neg ha] at h
      simp at h
      obtain ⟨h1, h2⟩ := h
      subst h1
      exact ⟨ha, by simp [Environment.setContainerRuntime, ha]⟩

/-- C6 witness: an environment configured with the concrete docker
runtime is returned unchanged, with no detection performed. -/
theorem c6_witness :
    envDocker.setContainerRuntime w0 = (Except.ok envDocker, []) :=
  (c6_runtime_cached envDocker w0 w0).1 (by decide)

/-- C2: when the cluster query output already lists the environment's
name (reuse path), `Init` issues no `create cluster` command and runs no
initializer: its full trace is runtime resolution, workdir creation,
config write, the query, and the factory call, nothing else. -/
theorem c2_reuse_no_create (env env' : Environment) (w : World)
    (tr0 : List Event) (out : String)
    (hset : env.setContainerRuntime w = (Except.ok env', tr0))
    (hmk : w.mkdirAllErr = none) (hwr : w.writeFileErr = none)
    (hq : w.execKind ["get", "clusters"] = Except.ok out)
    (hname : strContains out (env.Name ++ "\n") = true) :
    (env.Init w).trace =
      tr0 ++
        [Event.mkdirAll env.WorkDir,
         Event.writeFile (pathJoin env.WorkDir "/kind.yaml")
           (kindConfigFor w.dm0Exists),
         Event.execKind env'.config.ContainerRuntime
           (execKindChildEnv env'.config.ContainerRuntime w.osEnviron)
           ["get", "clusters"] true,
         Event.newCluster env.WorkDir
           (env.config.ClusterOptions ++
             [WithKubeconfigPath (pathJoin env.WorkDir "kubeconfig.yaml")])] ∧
    (∀ idx, Event.initRun idx ∉ (env.Init w).trace) ∧
    (∀ rt ce a cap, Event.execKind rt ce a cap ∈ (env.Init w).trace →
        a = ["get", "clusters"]) := by
  obtain ⟨hN, hW, hC, hI, hF, hO, hA⟩ := setCR_ok_inv env w env' tr0 hset
  have htr0 : tr0 = [] ∨ tr0 = [Event.detect] := by
    have := setCR_trace_cases env w
    rw [hset] at this
    exact this
  have hred : env.Init w =
      ⟨(match env'.config.NewCluster env.WorkDir
            (env.config.ClusterOptions ++
              [WithKubeconfigPath (pathJoin env.WorkDir "kubeconfig.yaml")]) with
        | Except.error e => Except.error ("creating k8s clients: " ++ e)
        | Except.ok _ => Except.ok ()),
       (match env'.config.NewCluster env.WorkDir
            (env.config.ClusterOptions ++
              [WithKubeconfigPath (pathJoin env.WorkDir "kubeconfig.yaml")]) with
        | Except.error _ => env'
        | Except.ok c => { env' with Cluster := some c }),
       tr0 ++
        [Event.mkdirAll env.WorkDir,
         Event.writeFile (pathJoin env.WorkDir "/kind.yaml")
           (kindConfigFor w.dm0Exists),
         Event.execKind env'.config.ContainerRuntime
           (execKindChildEnv env'.config.ContainerRuntime w.osEnviron)
           ["get", "clusters"] true,
         Event.newCluster env.WorkDir
           (env.config.ClusterOptions ++
             [WithKubeconfigPath (pathJoin env.WorkDir "kubeconfig.yaml")])]⟩ := by
    unfold Environment.Init
    rw [hset]
    simp only [hmk, hwr, Environment.execKindCommand, hq, hN, hW, hO,
      createClusterDecision, hname, Bool.not_true, createStep, if_neg,
      Bool.false_eq_true, not_false_eq_true]
    rcases hfac : env'.config.NewCluster env.WorkDir
        (env.config.ClusterOptions ++
          [WithKubeconfigPath (pathJoin env.WorkDir "kubeconfig.yaml")]) with e | c <;>
      simp [hfac]
  refine ⟨by rw [hred], ?_, ?_⟩
  · intro idx
    rw [hred]
    rcases htr0 with h0 | h0 <;> subst h0 <;> simp
  · intro rt ce a cap hmem
    rw [hred] at hmem
    rcases htr0 with h0 | h0 <;> subst h0 <;> simp at hmem <;>
      [exact hmem.2.2.1; exact hmem.2.2.1]

/-- C2 witness: a second `Init` on an already-existing cluster `n`
performs only workdir creation, config write, the query, and the factory
call — no create command, no initializer. -/
theorem c2_witness :
    (envDocker.Init wReuse).trace =
      [Event.mkdirAll "wd",
       Event.writeFile (pathJoin "wd" "/kind.yaml") (kindConfigFor false),
       Event.execKind ContainerRuntimeDocker
         (execKindChildEnv ContainerRuntimeDocker ["PATH=/bin"])
         ["get", "clusters"] true,
       Event.newCluster "wd"
         [WithKubeconfigPath (pathJoin "wd" "kubeconfig.yaml")]] :=
  (c2_reuse_no_create envDocker envDocker wReuse [] "n\n"
    (by unfold Environment.setContainerRuntime; rw [if_neg (by decide)])
    rfl rfl rfl (by decide)).1

/-- C3: on the create path, `Init` invokes the configured initializers
strictly in list order; with `pre ++ b :: post` where all of `pre`
succeed and `b` fails with `e`, the initializers invoked are exactly
positions `0 … pre.length` in order, `Init` returns `b`'s error wrapped
as "running cluster initializer: …", and no initializer of `post` is
ever invoked. -/
theorem c3_initializer_order (env env' : Environment) (w : World)
    (tr0 : List Event) (out createOut : String) (c : Cluster)
    (pre post : List ClusterInitializer) (b : ClusterInitializer) (e : String)
    (hset : env.setContainerRuntime w = (Except.ok env', tr0))
    (hmk : w.mkdirAllErr = none) (hwr : w.writeFileErr = none)
    (hq : w.execKind ["get", "clusters"] = Except.ok out)
    (hname : strContains out (env.Name ++ "\n") = false)
    (hcr : w.execKind
        ["create", "cluster",
          "--kubeconfig=" ++ pathJoin env.WorkDir "kubeconfig.yaml",
          "--name=" ++ env.Name,
          "--config=" ++ pathJoin env.WorkDir "/kind.yaml"] =
        Except.ok createOut)
    (hfac : env.config.NewCluster env.WorkDir
        (env.config.ClusterOptions ++
          [WithKubeconfigPath (pathJoin env.WorkDir "kubeconfig.yaml")]) =
        Except.ok c)
    (hinits : env.config.ClusterInitializers = pre ++ b :: post)
    (hpre : ∀ i ∈ pre, i.init c = Except.ok ())
    (hb : b.init c = Except.error e) :
    (env.Init w).res = Except.error ("running cluster initializer: " ++ e) ∧
    (∃ tr, (env.Init w).trace =
        tr ++ (List.range' 0 (pre.length + 1)).map Event.initRun ∧
        ∀ idx, Event.initRun idx ∉ tr) ∧
    (∀ j, Event.initRun j ∈ (env.Init w).trace → j ≤ pre.length) := by
  obtain ⟨hN, hW, hC, hI, hF, hO, hA⟩ := setCR_ok_inv env w env' tr0 hset
  have htr0 : tr0 = [] ∨ tr0 = [Event.detect] := by
    have := setCR_trace_cases env w
    rw [hset] at this
    exact this
  have hrun := runInitializers_fail c e b hb pre post 0 hpre
  have hred : env.Init w =
      ⟨Except.error ("running cluster initializer: " ++ e),
       { env' with Cluster := some c },
       (tr0 ++
        [Event.mkdirAll env.WorkDir,
         Event.writeFile (pathJoin env.WorkDir "/kind.yaml")
           (kindConfigFor w.dm0Exists),
         Event.execKind env'.config.ContainerRuntime
           (execKindChildEnv env'.config.ContainerRuntime w.osEnviron)
           ["get", "clusters"] true,
         Event.execKind env'.config.ContainerRuntime
           (execKindChildEnv env'.config.ContainerRuntime w.osEnviron)
           ["create", "cluster",
             "--kubeconfig=" ++ pathJoin env.WorkDir "kubeconfig.yaml",
             "--name=" ++ env.Name,
             "--config=" ++ pathJoin env.WorkDir "/kind.yaml"] false,
         Event.newCluster env.WorkDir
           (env.config.ClusterOptions ++
             [WithKubeconfigPath (pathJoin env.WorkDir "kubeconfig.yaml")])]) ++
        (List.range' 0 (pre.length + 1)).map Event.initRun⟩ := by
    unfold Environment.Init
    rw [hset]
    simp only [hmk, hwr, Environment.execKindCommand, hq, hN, hW, hO, hF, hI,
      createClusterDecision, hname, Bool.not_false, createStep, if_true,
      hcr, hfac, hinits, hrun]
    simp [List.append_assoc]
  refine ⟨by rw [hred], ?_, ?_⟩
  · refine ⟨tr0 ++
      [Event.mkdirAll env.WorkDir,
       Event.writeFile (pathJoin env.WorkDir "/kind.yaml")
         (kindConfigFor w.dm0Exists),
       Event.execKind env'.config.ContainerRuntime
         (execKindChildEnv env'.config.ContainerRuntime w.osEnviron)
         ["get", "clusters"] true,
       Event.execKind env'.config.ContainerRuntime
         (execKindChildEnv env'.config.ContainerRuntime w.osEnviron)
         ["create", "cluster",
           "--kubeconfig=" ++ pathJoin env.WorkDir "kubeconfig.yaml",
           "--name=" ++ env.Name,
           "--config=" ++ pathJoin env.WorkDir "/kind.yaml"] false,
       Event.newCluster env.WorkDir
         (env.config.ClusterOptions ++
           [WithKubeconfigPath (pathJoin env.WorkDir "kubeconfig.yaml")])],
      by rw [hred], ?_⟩
    intro idx
    rcases htr0 with h0 | h0 <;> subst h0 <;> simp
  · intro j hmem
    rw [hred] at hmem
    rcases htr0 with h0 | h0 <;> subst h0 <;>
      simp [List.mem_range'_1] at hmem <;> omega

/-- C3 witness: with initializers [ok, failing, ok], `Init` returns the
failing initializer's wrapped error. -/
theorem c3_witness :
    (envABC.Init w0).res =
      Except.error ("running cluster initializer: " ++ "B failed") :=
  (c3_initializer_order envABC envABC w0 [] "" "" ⟨0⟩ [initOk] [initOk]
    initFail "B failed"
    (by unfold Environment.setContainerRuntime; rw [if_neg (by decide)])
    rfl rfl rfl (by decide) rfl rfl rfl
    (by intro i hi; simp at hi; subst hi; rfl) rfl).1

/-- C5: whenever `Init` gets past creating the work directory, it writes
exactly one file: the topology document, at `<WorkDir>/kind.yaml`,
verbatim; the document is exactly the fixed two-line kind/apiVersion
header when `/dev/dm-0` does not exist, and exactly the header followed
by the control-plane extraMounts stanza when it exists. -/
theorem c5_config_content (env env' : Environment) (w : World)
    (tr0 : List Event)
    (hset : env.setContainerRuntime w = (Except.ok env', tr0))
    (hmk : w.mkdirAllErr = none) :
    Event.writeFile (pathJoin env.WorkDir "/kind.yaml")
      (kindConfigFor w.dm0Exists) ∈ (env.Init w).trace ∧
    (∀ p s, Event.writeFile p s ∈ (env.Init w).trace →
        p = pathJoin env.WorkDir "/kind.yaml" ∧
        s = kindConfigFor w.dm0Exists) ∧
    kindConfigFor false =
      "kind: Cluster\napiVersion: kind.x-k8s.io/v1alpha4\n" ∧
    kindConfigFor true =
      "kind: Cluster\napiVersion: kind.x-k8s.io/v1alpha4\n" ++
        "nodes:\n- role: control-plane\n  extraMounts:\n    - hostPath: /dev/dm-0\n      containerPath: /dev/dm-0\n      propagation: HostToContainer\n" := by
  obtain ⟨hN, hW, hC, hI, hF, hO, hA⟩ := setCR_ok_inv env w env' tr0 hset
  refine ⟨?_, ?_, rfl, rfl⟩
  · have := init_writeFile_mem env env' w tr0 hset hmk
    rwa [hW] at this
  · intro p s hm
    have hinv := init_events_inv env env' w tr0 hset _ hm
    rcases hinv with h1 | h1 | h1 | h1 | h1 | h1
    · simp at h1
    · simp at h1
    · rw [Event.writeFile.injEq] at h1
      rw [hW] at h1
      exact h1
    · obtain ⟨a', cap', heq⟩ := h1
      simp at heq
    · obtain ⟨opts, heq⟩ := h1
      simp at heq
    · obtain ⟨idx, heq⟩ := h1
      simp at heq

/-- C5 witness: on a host without `/dev/dm-0`, `Init` records the write
of the two-line header to `wd/kind.yaml` (even though the write itself
then fails, the attempted document is the header). -/
theorem c5_witness :
    Event.writeFile (pathJoin "wd" "/kind.yaml") (kindConfigFor false) ∈
      (envDocker.Init wWriteFail).trace :=
  (c5_config_content envDocker envDocker wWriteFail []
    (by unfold Environment.setContainerRuntime; rw [if_neg (by decide)])
    rfl).1

/-- C7, counterexample: the claim says every external-tool execution
happens with a concrete (non-auto) runtime in every reachable call
sequence; but calling `Destroy` on a freshly constructed auto-configured
environment (before any `Init`) executes `kind delete cluster` while the
configured runtime is still the unresolved `auto` sentinel. -/
theorem c7_counterexample :
    Event.execKind ContainerRuntimeAuto
      (execKindChildEnv ContainerRuntimeAuto ["PATH=/bin"])
      ["delete", "cluster",
        "--kubeconfig=" ++ pathJoin "wd" "kubeconfig.yaml",
        "--name=" ++ "n"] false ∈ (envAuto.Destroy w0).2 := by
  rw [destroy_events]
  simp [envAuto, NewEnvironment, zeroConfig, EnvironmentConfig.Default,
    ContainerRuntimeAuto, w0]

/-- C7 (amended): every external-tool command `Init` itself executes runs
with a concrete (never `auto`) runtime, and after a successful `Init`
every later `Destroy`/`LoadImageFromTar`/`RunKindCommand` on the
resulting environment also runs with a concrete runtime; however those
three operations, invoked on an auto-configured environment before
`Init` has resolved the runtime, execute with the `auto` sentinel. -/
theorem c7_amended (env : Environment) (w w' : World) (filePath : String)
    (args : List String) :
    (∀ rt ce a cap, Event.execKind rt ce a cap ∈ (env.Init w).trace →
        rt ≠ ContainerRuntimeAuto) ∧
    ((env.Init w).res = Except.ok () →
        ∀ rt ce a cap,
          (Event.execKind rt ce a cap ∈ ((env.Init w).env.Destroy w').2 ∨
           Event.execKind rt ce a cap ∈
             ((env.Init w).env.LoadImageFromTar w' filePath).2 ∨
           Event.execKind rt ce a cap =
             ((env.Init w).env.RunKindCommand w' args).2) →
          rt ≠ ContainerRuntimeAuto) := by
  constructor
  · intro rt ce a cap h
    exact (init_execKind_childEnv env w rt ce a cap h).2
  · intro hok rt ce a cap h
    rcases hset : env.setContainerRuntime w with ⟨r, tr0⟩
    rcases r with e | env'
    · exfalso
      unfold Environment.Init at hok
      rw [hset] at hok
      simp at hok
    · have hcfg := (init_env_inv env env' w tr0 hset).1
      have hA := (setCR_ok_inv env w env' tr0 hset).2.2.2.2.2.2
      have hrt : (env.Init w).env.config.ContainerRuntime ≠
          ContainerRuntimeAuto := by
        rw [hcfg]; exact hA
      rcases h with h | h | h
      · rw [destroy_events] at h
        simp at h
        obtain ⟨h1, _, _, _⟩ := h
        rw [h1]; exact hrt
      · rw [loadImage_events] at h
        simp at h
        obtain ⟨h1, _, _, _⟩ := h
        rw [h1]; exact hrt
      · unfold Environment.RunKindCommand Environment.execKindCommand at h
        simp at h
        obtain ⟨h1, _, _, _⟩ := h
        rw [h1]; exact hrt

/-- C7 witness: `Init` on a docker-configured environment (whose query
command fails) still executed the query with the concrete docker
runtime, which indeed differs from the auto sentinel. -/
theorem c7_witness : ContainerRuntimeDocker ≠ ContainerRuntimeAuto :=
  (c7_amended envDocker wQueryFail wQueryFail "f" []).1
    ContainerRuntimeDocker
    (execKindChildEnv ContainerRuntimeDocker ["PATH=/bin"])
    ["get", "clusters"] true
    (by
      unfold Environment.Init
      rw [show envDocker.setContainerRuntime wQueryFail =
          (Except.ok envDocker, []) from by
        unfold Environment.setContainerRuntime
        rw [if_neg (by decide)]]
      simp [Environment.execKindCommand, wQueryFail, w0, envDocker,
        zeroConfig, ContainerRuntimeDocker])

/-- C8: for every external-tool invocation made by the Environment
(`Init`, `Destroy`, `LoadImageFromTar`, `RunKindCommand`), the child
process environment is the inherited `os.Environ()` plus
`KIND_EXPERIMENTAL_PROVIDER=podman` exactly when the runtime configured
at that moment is podman, and exactly the inherited environment for any
other runtime value. -/
theorem c8_conditional_provider (env : Environment) (w : World)
    (filePath : String) (args : List String) (rt : ContainerRuntime)
    (ce a : List String) (cap : Bool)
    (h : Event.execKind rt ce a cap ∈ (env.Init w).trace ∨
         Event.execKind rt ce a cap ∈ (env.Destroy w).2 ∨
         Event.execKind rt ce a cap ∈ (env.LoadImageFromTar w filePath).2 ∨
         Event.execKind rt ce a cap = (env.RunKindCommand w args).2) :
    (rt = ContainerRuntimePodman →
        ce = w.osEnviron ++ ["KIND_EXPERIMENTAL_PROVIDER=podman"]) ∧
    (rt ≠ ContainerRuntimePodman → ce = w.osEnviron) := by
  have hce : ce = execKindChildEnv rt w.osEnviron := by
    rcases h with h | h | h | h
    · exact (init_execKind_childEnv env w rt ce a cap h).1
    · rw [destroy_events] at h
      simp at h
      obtain ⟨h1, h2, _, _⟩ := h
      rw [h1]
      exact h2
    · rw [loadImage_events] at h
      simp at h
      obtain ⟨h1, h2, _, _⟩ := h
      rw [h1]
      exact h2
    · unfold Environment.RunKindCommand Environment.execKindCommand at h
      simp at h
      obtain ⟨h1, h2, _, _⟩ := h
      rw [h1]
      exact h2
  subst hce
  constructor
  · intro hp
    simp [execKindChildEnv, hp, ContainerRuntimePodman]
  · intro hp
    simp only [execKindChildEnv]
    rw [if_neg (by simpa [ContainerRuntimePodman] using hp)]

/-- C8 witness: a `RunKindCommand` on a podman-configured environment
carries the extra provider variable appended to the inherited
environment. -/
theorem c8_witness :
    execKindChildEnv ContainerRuntimePodman ["PATH=/bin"] =
      ["PATH=/bin"] ++ ["KIND_EXPERIMENTAL_PROVIDER=podman"] :=
  (c8_conditional_provider envPodman w0 "f" ["version"]
      ContainerRuntimePodman
      (execKindChildEnv ContainerRuntimePodman ["PATH=/bin"]) ["version"]
      false (Or.inr (Or.inr (Or.inr rfl)))).1 rfl

/-- C9: on every run of `Init` that reaches client construction (both
reuse and created-cluster paths), the cluster factory is invoked exactly
once, receiving the work directory and the configured client options in
order followed by the injected kubeconfig-path option; and a factory
error makes `Init` fail with the wrapped error before any initializer is
invoked. -/
theorem c9_factory_once (env env' : Environment) (w : World)
    (tr0 : List Event) (out : String)
    (hset : env.setContainerRuntime w = (Except.ok env', tr0))
    (hmk : w.mkdirAllErr = none) (hwr : w.writeFileErr = none)
    (hq : w.execKind ["get", "clusters"] = Except.ok out)
    (hcr : createClusterDecision out env.Name = true →
        ∃ s, w.execKind
          ["create", "cluster",
            "--kubeconfig=" ++ pathJoin env.WorkDir "kubeconfig.yaml",
            "--name=" ++ env.Name,
            "--config=" ++ pathJoin env.WorkDir "/kind.yaml"] =
          Except.ok s) :
    ((env.Init w).trace.filter Event.isNewCluster) =
      [Event.newCluster env.WorkDir
        (env.config.ClusterOptions ++
          [WithKubeconfigPath (pathJoin env.WorkDir "kubeconfig.yaml")])] ∧
    (∀ e, env.config.NewCluster env.WorkDir
        (env.config.ClusterOptions ++
          [WithKubeconfigPath (pathJoin env.WorkDir "kubeconfig.yaml")]) =
        Except.error e →
      (env.Init w).res = Except.error ("creating k8s clients: " ++ e) ∧
      ∀ idx, Event.initRun idx ∉ (env.Init w).trace) := by
  obtain ⟨hN, hW, hC, hI, hF, hO, hA⟩ := setCR_ok_inv env w env' tr0 hset
  have htr0 : tr0 = [] ∨ tr0 = [Event.detect] := by
    have := setCR_trace_cases env w
    rw [hset] at this
    simpa using this
  unfold Environment.Init
  rw [hset]
  simp only [hmk, hwr, Environment.execKindCommand, hq, hN, hW, hO, hF, hI]
  rcases hcc : createClusterDecision out env.Name with _ | _
  case false =>
    rw [show createStep env' w false (pathJoin env.WorkDir "kubeconfig.yaml")
        (pathJoin env.WorkDir "/kind.yaml") = (Except.ok (), []) from by
      simp [createStep]]
    dsimp only
    rcases hfac : env.config.NewCluster env.WorkDir
        (env.config.ClusterOptions ++
          [WithKubeconfigPath (pathJoin env.WorkDir "kubeconfig.yaml")])
      with eF | c
    case error =>
      constructor
      · rcases htr0 with h0 | h0 <;> subst h0 <;>
          simp [Event.isNewCluster]
      · intro e heq
        rw [Except.error.injEq] at heq
        subst heq
        constructor
        · rfl
        · intro idx
          rcases htr0 with h0 | h0 <;> subst h0 <;> simp
    case ok =>
      constructor
      · rcases htr0 with h0 | h0 <;> subst h0 <;>
          simp [Event.isNewCluster]
      · intro e heq
        simp at heq
  case true =>
    obtain ⟨s, hs⟩ := hcr hcc
    rw [show createStep env' w true (pathJoin env.WorkDir "kubeconfig.yaml")
        (pathJoin env.WorkDir "/kind.yaml") =
        (Except.ok (),
          [Event.execKind env'.config.ContainerRuntime
            (execKindChildEnv env'.config.ContainerRuntime w.osEnviron)
            ["create", "cluster",
              "--kubeconfig=" ++ pathJoin env.WorkDir "kubeconfig.yaml",
              "--name=" ++ env.Name,
              "--config=" ++ pathJoin env.WorkDir "/kind.yaml"] false])
        from by
      simp [createStep, Environment.execKindCommand, hN, hs]]
    dsimp only
    rcases hfac : env.config.NewCluster env.WorkDir
        (env.config.ClusterOptions ++
          [WithKubeconfigPath (pathJoin env.WorkDir "kubeconfig.yaml")])
      with eF | c
    case error =>
      constructor
      · rcases htr0 with h0 | h0 <;> subst h0 <;>
          simp [Event.isNewCluster]
      · intro e heq
        rw [Except.error.injEq] at heq
        subst heq
        constructor
        · rfl
        · intro idx
          rcases htr0 with h0 | h0 <;> subst h0 <;> simp
    case ok =>
      dsimp only
      rcases hri : runInitializers env.config.ClusterInitializers c 0
        with ⟨idxs, r2⟩
      rcases r2 with _ | eI <;>
        (constructor
         · rcases htr0 with h0 | h0 <;> subst h0 <;>
             simp [Event.isNewCluster, filter_isNewCluster_map_initRun]
         · intro e heq
           simp at heq)

/-- C9 witness: with a failing factory, `Init` aborts with the wrapped
client-construction error. -/
theorem c9_witness :
    (envFacFail.Init w0).res =
      Except.error ("creating k8s clients: " ++ "nope") :=
  (((c9_factory_once envFacFail envFacFail w0 [] ""
      (by unfold Environment.setContainerRuntime; rw [if_neg (by decide)])
      rfl rfl rfl (fun _ => ⟨"", rfl⟩)).2) "nope" rfl).1

/-- C10: `Init` assigns the `Cluster` field right after successful client
construction and before any initializer runs: when the trace shows no
factory invocation (any failure before client construction), the field
is unchanged; and whenever the factory was reached and returned a
handle, the final environment's `Cluster` field holds that handle — even
when a subsequent initializer fails the `Init` call. -/
theorem c10_cluster_field (env : Environment) (w : World) :
    ((∀ wd opts, Event.newCluster wd opts ∉ (env.Init w).trace) →
        (env.Init w).env.Cluster = env.Cluster) ∧
    (∀ env' tr0 out c,
        env.setContainerRuntime w = (Except.ok env', tr0) →
        w.mkdirAllErr = none → w.writeFileErr = none →
        w.execKind ["get", "clusters"] = Except.ok out →
        (createClusterDecision out env.Name = true →
            ∃ s, w.execKind
              ["create", "cluster",
                "--kubeconfig=" ++ pathJoin env.WorkDir "kubeconfig.yaml",
                "--name=" ++ env.Name,
                "--config=" ++ pathJoin env.WorkDir "/kind.yaml"] =
              Except.ok s) →
        env.config.NewCluster env.WorkDir
            (env.config.ClusterOptions ++
              [WithKubeconfigPath (pathJoin env.WorkDir "kubeconfig.yaml")]) =
          Except.ok c →
        (env.Init w).env.Cluster = some c) := by
  constructor
  · intro h
    rcases init_cluster_or_newCluster env w with hc | ⟨wd, opts, hm⟩
    · exact hc
    · exact absurd hm (h wd opts)
  · intro env' tr0 out c hset hmk hwr hq hcr hfac
    obtain ⟨hN, hW, hC, hI, hF, hO, hA⟩ := setCR_ok_inv env w env' tr0 hset
    unfold Environment.Init
    rw [hset]
    simp only [hmk, hwr, Environment.execKindCommand, hq, hN, hW, hO, hF, hI]
    rcases hcc : createClusterDecision out env.Name with _ | _
    case false =>
      rw [show createStep env' w false
          (pathJoin env.WorkDir "kubeconfig.yaml")
          (pathJoin env.WorkDir "/kind.yaml") = (Except.ok (), []) from by
        simp [createStep]]
      dsimp only
      rw [hfac]
      rfl
    case true =>
      obtain ⟨s, hs⟩ := hcr hcc
      rw [show createStep env' w true
          (pathJoin env.WorkDir "kubeconfig.yaml")
          (pathJoin env.WorkDir "/kind.yaml") =
          (Except.ok (),
            [Event.execKind env'.config.ContainerRuntime
              (execKindChildEnv env'.config.ContainerRuntime w.osEnviron)
              ["create", "cluster",
                "--kubeconfig=" ++ pathJoin env.WorkDir "kubeconfig.yaml",
                "--name=" ++ env.Name,
                "--config=" ++ pathJoin env.WorkDir "/kind.yaml"] false])
          from by
        simp [createStep, Environment.execKindCommand, hN, hs]]
      dsimp only
      rw [hfac]
      dsimp only
      rcases hri : runInitializers env.config.ClusterInitializers c 0
        with ⟨idxs, r2⟩
      rcases r2 with _ | eI <;> rfl

/-- C10 witness: with the failing middle initializer, `Init` fails but
the `Cluster` field holds the freshly built handle. -/
theorem c10_witness : (envABC.Init w0).env.Cluster = some ⟨0⟩ :=
  (c10_cluster_field envABC w0).2 envABC [] "" ⟨0⟩
    (by unfold Environment.setContainerRuntime; rw [if_neg (by decide)])
    rfl rfl rfl (fun _ => ⟨"", rfl⟩) rfl

end Devkube
